import Mathlib

/-!
Shallow embedding of the mcpizza Order Assembly and Deal-Guidance engine.

Sources embedded:
  src/mcpizza/utils/mock_order.py        (mock order payload, add_coupon, add_product)
  src/mcpizza/services/order_service.py  (create_order, add_item_to_order,
                                          add_pizza_with_toppings, view_order, clear_order)
  src/mcpizza/services/store_service.py  (get_coupons normalization and sort)
  src/mcpizza/services/guidance_service.py (get_ordering_guidance)
  src/mcpizza/services/payment_service.py (place_order two-phase coordinator)
  src/mcpizza/server.py                  (server-level crust map default)
  src/mcpizza/tools/order_tools.py       (tool handlers catching service exceptions)

Python dictionaries are embedded as association lists with insert-or-replace
update (a Python dict keeps the original key position on update and appends
new keys at the end, which assocSet reproduces).  Python exceptions that cross
a function boundary are embedded as Except.error.  Prices are embedded as
rationals; the float literals of the source are carried over verbatim.
-/

namespace MCPizza

/-- Python dict update: replace the value in place when the key exists,
otherwise append the binding at the end. -/
def assocSet {V : Type} (d : List (String × V)) (k : String) (v : V) :
    List (String × V) :=
  match d with
  | [] => [(k, v)]
  | p :: rest => if p.1 == k then (p.1, v) :: rest else p :: assocSet rest k v

/-- Python dict lookup returning the first (unique) binding of the key. -/
def assocGet {V : Type} (d : List (String × V)) (k : String) : Option V :=
  (d.find? (fun p => p.1 == k)).map Prod.snd

/-- The fixed whole-pizza full-portion spec used for every topping
(mock_order.py writes the dict holding key "1/1" with value "1"). -/
def wholePortion : List (String × String) := [("1/1", "1")]

/-- Topping options mapping: topping code to portion spec dictionary. -/
abbrev ToppingOptions := List (String × List (String × String))

/-- A coupon record of the order payload: mock_order.add_coupon appends
Code, Qty, ID. -/
structure CouponRec where
  code : String
  qty : Nat
  id : Nat
deriving DecidableEq

/-- A product record of the order payload: mock_order.add_product appends
Code, Qty, ID, isNew, Options. -/
structure ProductRec where
  code : String
  qty : Nat
  id : Nat
  isNew : Bool
  options : ToppingOptions
deriving DecidableEq

/-- Store reference: only the id is read by the embedded operations. -/
structure Store where
  id : String
deriving DecidableEq

/-- Customer object (pizzapi Customer as constructed by create_order). -/
structure Customer where
  first_name : String
  last_name : String
  email : String
  phone : String
deriving DecidableEq

/-- Address object (pizzapi Address as constructed by create_order). -/
structure AddressRec where
  street : String
  city : String
  region : String
  zip : String
deriving DecidableEq

/-- The mock order object of mock_order.create_mock_order: store, customer and
address references plus the mutable Coupons and Products lists of its data
dict together with the ServiceMethod field.  The remaining data-dict fields
are fixed vendor-required constants never read or written by the embedded
assembly operations. -/
structure MockOrder where
  store : Store
  customer : Customer
  address : AddressRec
  service_method : String
  coupons : List CouponRec
  products : List ProductRec
deriving DecidableEq

/-- mock_order.create_mock_order: fresh order with empty Coupons and
Products lists. -/
def create_mock_order (store : Store) (customer : Customer)
    (address : AddressRec) (order_type : String) : MockOrder :=
  { store := store, customer := customer, address := address,
    service_method := order_type, coupons := [], products := [] }

/-- mock_order add_coupon: append Code, Qty 1, ID = current length + 1. -/
def add_coupon (o : MockOrder) (coupon_code : String) : MockOrder :=
  { o with coupons :=
      o.coupons ++ [{ code := coupon_code, qty := 1, id := o.coupons.length + 1 }] }

/-- mock_order add_product: append Code, Qty 1, ID = current length + 1,
isNew true, Options = options or empty dict (a None argument and an empty
dict both store the empty dict, which Option.getD reproduces). -/
def add_product (o : MockOrder) (product_code : String)
    (options : Option ToppingOptions) : MockOrder :=
  { o with products :=
      o.products ++ [{ code := product_code, qty := 1,
                       id := o.products.length + 1, isNew := true,
                       options := options.getD [] }] }

/-- Python str.isdigit: nonempty and every character a decimal digit. -/
def pyIsdigit (s : String) : Bool := !s.isEmpty && s.data.all Char.isDigit

/-- order_service.add_item_to_order: raises when no current order, classifies
4-digit codes as coupons, everything else as products.  The raise is embedded
as Except.error with the message of the Python exception. -/
def add_item_to_order (cur : Option MockOrder) (item_code : String)
    (quantity : Nat) (options : Option ToppingOptions) :
    Except String (MockOrder × String) :=
  match cur with
  | none => .error "No order created. Call create_order first."
  | some o =>
    if pyIsdigit item_code && item_code.length == 4 then
      .ok (add_coupon o item_code, "Added coupon " ++ item_code ++ " to order")
    else
      .ok (add_product o item_code options,
           "Added " ++ toString quantity ++ "x " ++ item_code ++ " to order")

/-- The crust_map literal shared by order_service.add_pizza_with_toppings and
the server-level handler. -/
def crust_map : List (String × String) :=
  [("NPAN", "PAZA"), ("HAND", "HAND"), ("THIN", "THIN"), ("BROOKLYN", "BK")]

/-- crust_map.get(crust, "HAND") as in order_service.add_pizza_with_toppings. -/
def crustTokenService (crust : String) : String :=
  ((crust_map.find? (fun p => p.1 == crust)).map Prod.snd).getD "HAND"

/-- crust_map.get(crust, "PAZA") as in the server.py add_pizza_with_toppings
handler. -/
def crustTokenServer (crust : String) : String :=
  ((crust_map.find? (fun p => p.1 == crust)).map Prod.snd).getD "PAZA"

/-- The topping-options loop: for each topping code insert the whole-pizza
portion spec into the options dict (a repeated code overwrites its earlier
binding, Python dict semantics). -/
def build_topping_options (toppings : List String) : ToppingOptions :=
  toppings.foldl (fun acc t => assocSet acc t wholePortion) []

/-- order_service.add_pizza_with_toppings: raises when no current order, else
appends the coupon, computes the product code from size and crust token, and
appends the product with one options entry per distinct topping code. -/
def add_pizza_with_toppings (cur : Option MockOrder) (coupon_code : String)
    (size : String) (crust : String) (toppings : List String) :
    Except String (MockOrder × String) :=
  match cur with
  | none => .error "No order created. Call create_order first."
  | some o =>
    let o1 := add_coupon o coupon_code
    let product_code := "P" ++ size ++ "I" ++ crustTokenService crust
    let topping_options := build_topping_options toppings
    let o2 := add_product o1 product_code (some topping_options)
    .ok (o2, "Added " ++ size ++ " " ++ crust ++ " pizza with " ++
         toString toppings.length ++ " toppings using coupon " ++ coupon_code)

/-- The read-only projection returned by order_service.view_order. -/
structure ViewResult where
  store_id : String
  customer_name : String
  coupons : List CouponRec
  products : List ProductRec
  service_method : String
deriving DecidableEq

/-- order_service.view_order: raises when no current order, else returns the
projection of the current order. -/
def view_order (cur : Option MockOrder) : Except String ViewResult :=
  match cur with
  | none => .error "No order created yet."
  | some o =>
    .ok { store_id := o.store.id,
          customer_name := o.customer.first_name ++ " " ++ o.customer.last_name,
          coupons := o.coupons, products := o.products,
          service_method := o.service_method }

/-- order_service.clear_order: reset the current order to none. -/
def clear_order (_cur : Option MockOrder) : Option MockOrder × String :=
  (none, "Order cleared")

/-- The three module-level globals of order_service.py. -/
structure OrderGlobals where
  current_order : Option MockOrder
  current_store : Option Store
  current_customer : Option Customer
deriving DecidableEq

/-- Python name.split(" ", 1): first token before the first blank, and the
remainder (with any further blanks preserved). -/
def split_name (customer_name : String) : String × String :=
  let parts := customer_name.splitOn " "
  (parts.headD "", String.intercalate " " parts.tail)

/-- The outcome of address.closest_store(): a single store, a list of stores,
or a raised lookup exception. -/
abbrev StoreLookup := Except String (Store ⊕ List Store)

/-- order_service.create_order.  The store lookup outcome is passed in as a
parameter (it is the external collaborator).  A lookup exception propagates;
an empty store list raises IndexError because the eager default argument
all_stores[0] of next() is evaluated before the match scan; otherwise the
entry matching store_id is selected, defaulting to the first entry.  The
three globals are only produced together with the fully constructed order,
mirroring the assignments at the end of the Python function. -/
def create_order (lookup : StoreLookup) (store_id customer_name customer_email
    customer_phone delivery_address delivery_city delivery_state delivery_zip
    order_type : String) : Except String (OrderGlobals × String) :=
  let (first_name, last_name) := split_name customer_name
  let customer : Customer :=
    { first_name := first_name, last_name := last_name,
      email := customer_email, phone := customer_phone }
  let address : AddressRec :=
    { street := delivery_address, city := delivery_city,
      region := delivery_state, zip := delivery_zip }
  match lookup with
  | .error e => .error e
  | .ok (.inl s) =>
    let order := create_mock_order s customer address order_type
    .ok ({ current_order := some order, current_store := some s,
           current_customer := some customer },
         "Order created for " ++ customer_name)
  | .ok (.inr stores) =>
    match stores with
    | [] => .error "IndexError: list index out of range"
    | s0 :: _ =>
      let s := (stores.find? (fun st => st.id == store_id)).getD s0
      let order := create_mock_order s customer address order_type
      .ok ({ current_order := some order, current_store := some s,
             current_customer := some customer },
           "Order created for " ++ customer_name)

/-- The effect of one tool-level create_order call on the globals: on success
the returned state replaces them wholesale, on a raised exception the handler
catches and the globals keep their previous values. -/
def run_create_order (st : OrderGlobals) (lookup : StoreLookup)
    (store_id customer_name customer_email customer_phone delivery_address
     delivery_city delivery_state delivery_zip order_type : String) :
    OrderGlobals :=
  match create_order lookup store_id customer_name customer_email
      customer_phone delivery_address delivery_city delivery_state
      delivery_zip order_type with
  | .error _ => st
  | .ok (st2, _) => st2

/-- order_tools.handle_add_item_to_order: catch-all around the service call,
returning the new state (unchanged on exception) and the message text.  The
leading check-mark glyph of the source is transcribed as the tag "[ok] ". -/
def handle_add_item_to_order (cur : Option MockOrder) (item_code : String)
    (quantity : Nat) (options : Option ToppingOptions) :
    Option MockOrder × String :=
  match add_item_to_order cur item_code quantity options with
  | .ok (o, msg) => (some o, "[ok] " ++ msg)
  | .error e => (cur, "Error adding item: " ++ e)

/-- order_tools.handle_add_pizza_with_toppings: catch-all around the service
call. -/
def handle_add_pizza_with_toppings (cur : Option MockOrder)
    (coupon_code size crust : String) (toppings : List String) :
    Option MockOrder × String :=
  match add_pizza_with_toppings cur coupon_code size crust toppings with
  | .ok (o, msg) => (some o, "[ok] " ++ msg)
  | .error e => (cur, "Error adding pizza: " ++ e)

/-- order_tools.handle_view_order: catch-all around the service call; the
success text formatting is abbreviated to the projected store id. -/
def handle_view_order (cur : Option MockOrder) : String :=
  match view_order cur with
  | .ok v => "CURRENT ORDER: " ++ v.store_id
  | .error e => "Error viewing order: " ++ e

/-- order_tools.handle_clear_order: the service call cannot raise. -/
def handle_clear_order (cur : Option MockOrder) : Option MockOrder × String :=
  let (st, msg) := clear_order cur
  (st, "[ok] " ++ msg)

/-! ## Deal guidance engine (store_service.get_coupons and
guidance_service.get_ordering_guidance) -/

/-- A raw coupon record of the vendor menu response: code, display name and
an optional numeric price (a missing Price key and an explicit None both
count as absent). -/
structure RawCoupon where
  code : String
  name : String
  price : Option ℚ
deriving DecidableEq

/-- A normalized coupon record as produced by store_service.get_coupons. -/
structure CouponEntry where
  code : String
  name : String
  price : ℚ
deriving DecidableEq

/-- The 999.99 sentinel price of store_service.get_coupons, written as the
rational 99999/100. -/
def sentinelPrice : ℚ := mkRat 99999 100

/-- store_service.get_coupons normalization of one coupon record. -/
def normalize_coupon (r : RawCoupon) : CouponEntry :=
  { code := r.code, name := r.name, price := r.price.getD sentinelPrice }

/-- The ascending-price order used by coupon_list.sort(key: price). -/
def priceLE (a b : CouponEntry) : Prop := a.price ≤ b.price

instance : DecidableRel priceLE :=
  fun a b => inferInstanceAs (Decidable (a.price ≤ b.price))

instance : IsTotal CouponEntry priceLE := ⟨fun a b => le_total a.price b.price⟩

instance : IsTrans CouponEntry priceLE := ⟨fun _ _ _ h1 h2 => le_trans h1 h2⟩

/-- store_service.get_coupons: normalize every record and sort ascending by
price. -/
def get_coupons (raw : List RawCoupon) : List CouponEntry :=
  List.insertionSort priceLE (raw.map normalize_coupon)

/-- Python str.lower restricted to the character-wise mapping (ASCII names
and requests in this codebase). -/
def pyLower (s : String) : String := String.mk (s.data.map Char.toLower)

/-- Substring test on character lists: the pattern occurs inside the text. -/
def charsContainsPat (p : List Char) : List Char → Bool
  | [] => p.isEmpty
  | c :: cs => List.isPrefixOf p (c :: cs) || charsContainsPat p cs

/-- Python membership test pat in hay on strings. -/
def strHasSub (hay pat : String) : Bool := charsContainsPat pat.data hay.data

/-- Multi-pizza bucket predicate of guidance_service (matched on the
lowercased name). -/
def multi_pred (c : CouponEntry) : Bool :=
  strHasSub (pyLower c.name) "2 or more" || strHasSub (pyLower c.name) "two or more"

/-- Medium single-pizza bucket predicate of guidance_service. -/
def medium_pred (c : CouponEntry) : Bool :=
  strHasSub (pyLower c.name) "medium" && decide (c.price ≠ sentinelPrice) &&
    strHasSub (pyLower c.name) "pizza"

/-- Large single-pizza bucket predicate of guidance_service. -/
def large_pred (c : CouponEntry) : Bool :=
  strHasSub (pyLower c.name) "large" && decide (c.price ≠ sentinelPrice) &&
    strHasSub (pyLower c.name) "pizza"

/-- Percentage bucket predicate of guidance_service. -/
def percent_pred (c : CouponEntry) : Bool :=
  strHasSub (pyLower c.name) "%" || strHasSub (pyLower c.name) "percent"

/-- The three strategy buckets accumulated by the classification loop; the
single-pizza bucket keeps the size tag of its elif branch. -/
structure Buckets where
  multi_pizza_deals : List CouponEntry
  single_pizza_deals : List (String × CouponEntry)
  percentage_deals : List CouponEntry
deriving DecidableEq

/-- The classification loop of get_ordering_guidance: one exclusive
if/elif chain per coupon, appending to the matching bucket in scan order. -/
def classify_deals : List CouponEntry → Buckets
  | [] => { multi_pizza_deals := [], single_pizza_deals := [],
            percentage_deals := [] }
  | c :: rest =>
    let b := classify_deals rest
    if multi_pred c then { b with multi_pizza_deals := c :: b.multi_pizza_deals }
    else if medium_pred c then
      { b with single_pizza_deals := ("medium", c) :: b.single_pizza_deals }
    else if large_pred c then
      { b with single_pizza_deals := ("large", c) :: b.single_pizza_deals }
    else if percent_pred c then
      { b with percentage_deals := c :: b.percentage_deals }
    else b

/-- The recommendation selection of get_ordering_guidance: the deep-dish/pan
branch scans the single-pizza bucket for a medium 2-topping name, otherwise
the first multi-pizza entry wins, else the first single-pizza entry, else
none. -/
def recommended_code (coupons : List CouponEntry) (user_request : String) :
    Option String :=
  let b := classify_deals coupons
  let rl := pyLower user_request
  if strHasSub rl "deep dish" || strHasSub rl "pan" then
    match b.single_pizza_deals.find? (fun p =>
        strHasSub (pyLower p.2.name) "medium" && strHasSub p.2.name "2" &&
          strHasSub (pyLower p.2.name) "topping") with
    | some p => some p.2.code
    | none => none
  else
    match b.multi_pizza_deals with
    | c :: _ => some c.code
    | [] =>
      match b.single_pizza_deals with
      | p :: _ => some p.2.code
      | [] => none

/-- guidance_service.get_ordering_guidance restricted to its recommended_code
output, composed with the get_coupons accessor it calls. -/
def get_ordering_guidance (raw : List RawCoupon) (user_request : String) :
    Option String :=
  recommended_code (get_coupons raw) user_request

/-! ## Pricing and submission coordinator (payment_service.place_order) -/

/-- Embedded Python values as they occur in the order payload dict and the
vendor responses: strings, numbers, booleans, None, lists and dicts. -/
inductive PyVal where
  | str : String → PyVal
  | num : ℚ → PyVal
  | pybool : Bool → PyVal
  | pynone : PyVal
  | list : List PyVal → PyVal
  | dict : List (String × PyVal) → PyVal

/-- A Python dict with string keys and embedded values. -/
abbrev PyDict := List (String × PyVal)

/-- Python truthiness of an embedded value. -/
def truthy : PyVal → Bool
  | .str s => !s.isEmpty
  | .num q => decide (q ≠ 0)
  | .pybool b => b
  | .pynone => false
  | .list l => !l.isEmpty
  | .dict l => !l.isEmpty

/-- isinstance(value, list). -/
def isList : PyVal → Bool
  | .list _ => true
  | _ => false

/-- One iteration of the pricing merge loop of payment_service.place_order:
write the incoming value unless it is a falsy list. -/
def pricingMergeStep (d : PyDict) (kv : String × PyVal) : PyDict :=
  if truthy kv.2 || !isList kv.2 then assocSet d kv.1 kv.2 else d

/-- The pricing merge loop (payment_service.place_order, also verbatim in the
server.py handler): fold the response order items into the payload. -/
def pricing_merge (d : PyDict) (respOrder : PyDict) : PyDict :=
  respOrder.foldl pricingMergeStep d

/-- response.get("Status") == -1 for an embedded response dict (a missing or
non-numeric Status never equals the integer -1). -/
def statusIsNeg1 (resp : PyDict) : Bool :=
  match assocGet resp "Status" with
  | some (PyVal.num q) => decide (q = -1)
  | _ => false

/-- response.get("Order", empty dict), treating a non-dict value as the empty
default (the source never receives one). -/
def respOrderDict (resp : PyDict) : PyDict :=
  match assocGet resp "Order" with
  | some (PyVal.dict d) => d
  | _ => []

/-- response.get("Order", empty).get("StatusItems", empty list). -/
def respStatusItems (resp : PyDict) : PyVal :=
  (assocGet (respOrderDict resp) "StatusItems").getD (PyVal.list [])

/-- Caller-supplied card fields of place_order. -/
structure PaymentInfo where
  card_number : String
  card_expiry : String
  card_cvv : String
  card_zip : String
deriving DecidableEq

/-- The data.update(...) of the price phase: StoreID, Email, FirstName,
LastName, Phone written in keyword order. -/
def update_customer_fields (d : PyDict) (store_id email first last phone :
    String) : PyDict :=
  assocSet (assocSet (assocSet (assocSet (assocSet d
    "StoreID" (.str store_id)) "Email" (.str email)) "FirstName" (.str first))
    "LastName" (.str last)) "Phone" (.str phone)

/-- data["Amounts"].get("Customer", 0); the payload always carries an Amounts
dict (the mock order initializes it and the merge never removes it). -/
def amounts_customer (d : PyDict) : PyVal :=
  match assocGet d "Amounts" with
  | some (PyVal.dict a) => (assocGet a "Customer").getD (PyVal.num 0)
  | _ => PyVal.num 0

/-- The single payment entry built by the payment phase, with the leading-3
card-network heuristic. -/
def payment_entry (pay : PaymentInfo) (amount : PyVal) : PyVal :=
  PyVal.dict
    [("Type", .str "CreditCard"),
     ("Number", .str pay.card_number),
     ("Expiration", .str pay.card_expiry),
     ("Amount", amount),
     ("CardType", .str (if pay.card_number.startsWith "3" then "AMEX" else "Visa")),
     ("SecurityCode", .str pay.card_cvv),
     ("PostalCode", .str pay.card_zip)]

/-- The structured result dict assembled by payment_service.place_order,
restricted to the keys the claims read.  Fields are None when the source
never assigns the key on the taken path. -/
structure PlaceResult where
  success : Bool
  rejected : Bool
  status : Option PyVal
  status_items : Option PyVal
  order_id : Option PyVal
  estimated_wait : Option PyVal
  error : Option String

/-- payment_service.place_order on a present current order, with the two
vendor responses passed in as data (the transport collaborator); the
transport-exception paths are outside this embedding.  Phase 1 merges the
customer fields and the pricing response, phase 2 attaches the single
payment entry, phase 3 inspects the submission response.  The apostrophe of
the rejection message constant is elided. -/
def place_order (store_id first last email phone : String) (data0 : PyDict)
    (price_resp : PyDict) (pay : PaymentInfo) (submit_resp : PyDict) :
    PlaceResult × PyDict :=
  let d1 := update_customer_fields data0 store_id email first last phone
  if statusIsNeg1 price_resp then
    ({ success := false, rejected := false, status := none,
       status_items := none, order_id := none, estimated_wait := none,
       error := some "Pricing failed" }, d1)
  else
    let d2 := pricing_merge d1 (respOrderDict price_resp)
    let d3 := assocSet d2 "Payments"
      (PyVal.list [payment_entry pay (amounts_customer d2)])
    if statusIsNeg1 submit_resp then
      ({ success := false, rejected := true,
         status := assocGet submit_resp "Status",
         status_items := some (respStatusItems submit_resp),
         order_id := none, estimated_wait := none,
         error := some "ORDER REJECTED BY DOMINOS" }, d3)
    else
      ({ success := true, rejected := false,
         status := assocGet submit_resp "Status",
         status_items := none,
         order_id := some ((assocGet (respOrderDict submit_resp)
           "OrderID").getD PyVal.pynone),
         estimated_wait := some ((assocGet (respOrderDict submit_resp)
           "EstimatedWaitMinutes").getD PyVal.pynone),
         error := none }, d3)

/-! ## Concrete fixtures used by witnesses and counterexamples -/

/-- A concrete open order used to evaluate the operations. -/
def testOrder : MockOrder :=
  { store := { id := "8022" },
    customer := { first_name := "Jane", last_name := "Doe",
                  email := "jane@x.com", phone := "555-0001" },
    address := { street := "1 Elm St", city := "Springfield",
                 region := "IL", zip := "62704" },
    service_method := "Delivery", coupons := [], products := [] }

/-- A concrete payload for the coordinator fixtures: an unpriced mock order
payload restricted to the keys the claims read. -/
def testData : PyDict :=
  [("OrderID", PyVal.str ""), ("Coupons", PyVal.list [PyVal.str "9204"]),
   ("Products", PyVal.list [PyVal.str "P12IPAZA"]), ("Amounts", PyVal.dict [])]

/-- A concrete successful pricing response. -/
def testPriceResp : PyDict :=
  [("Status", PyVal.num 0),
   ("Order", PyVal.dict
     [("Coupons", PyVal.list []),
      ("Amounts", PyVal.dict [("Customer", PyVal.num 25)])])]

/-- A concrete rejected submission response carrying one status item. -/
def testSubmitResp : PyDict :=
  [("Status", PyVal.num (-1)),
   ("Order", PyVal.dict
     [("StatusItems", PyVal.list
        [PyVal.dict [("Code", PyVal.str "10"),
                     ("Text", PyVal.str "Store closed")]])])]

/-- Concrete card fields. -/
def testPayment : PaymentInfo :=
  { card_number := "4100", card_expiry := "0130", card_cvv := "123",
    card_zip := "62704" }

/-- A sequence of mock-order add_coupon calls in order. -/
def run_add_coupons (codes : List String) (o : MockOrder) : MockOrder :=
  codes.foldl add_coupon o

/-- A sequence of mock-order add_product calls in order. -/
def run_add_products (items : List (String × Option ToppingOptions))
    (o : MockOrder) : MockOrder :=
  items.foldl (fun acc it => add_product acc it.1 it.2) o

/-- One add_item_to_order call on an open order, keeping the order state
(the error branch is unreachable for an open order). -/
def apply_add_item (o : MockOrder)
    (call : String × Nat × Option ToppingOptions) : MockOrder :=
  match add_item_to_order (some o) call.1 call.2.1 call.2.2 with
  | .ok (o2, _) => o2
  | .error _ => o

/-- A sequence of add_item_to_order calls (code, quantity, options) on an
open order. -/
def run_add_items (calls : List (String × Nat × Option ToppingOptions))
    (o : MockOrder) : MockOrder :=
  calls.foldl apply_add_item o

/-- The single-pizza membership test implied by the elif chain: not a
multi-pizza match, and either the medium or the large branch fires. -/
def single_pred (c : CouponEntry) : Bool :=
  !multi_pred c && (medium_pred c || large_pred c)

/-- The size tag recorded with a single-pizza entry: the medium branch is
tried first. -/
def size_tag (c : CouponEntry) : String :=
  if medium_pred c then "medium" else "large"

/-- Concrete globals with an existing current order, store and customer. -/
def testGlobals : OrderGlobals :=
  { current_order := some testOrder, current_store := some testOrder.store,
    current_customer := some testOrder.customer }

/-! ## Lemmas about the dict embedding -/

theorem assocSet_cons {V : Type} (p : String × V) (rest : List (String × V))
    (k : String) (v : V) :
    assocSet (p :: rest) k v =
      if p.1 == k then (p.1, v) :: rest else p :: assocSet rest k v := rfl

theorem assocGet_cons {V : Type} (p : String × V) (rest : List (String × V))
    (k : String) :
    assocGet (p :: rest) k =
      if p.1 == k then some p.2 else assocGet rest k := by
  unfold assocGet
  cases hbk : p.1 == k <;> simp [List.find?, hbk]

theorem assocGet_assocSet_self {V : Type} (d : List (String × V)) (k : String)
    (v : V) : assocGet (assocSet d k v) k = some v := by
  induction d with
  | nil => simp [assocSet, assocGet_cons]
  | cons p rest ih =>
    rw [assocSet_cons]
    cases hbk : p.1 == k <;> simp [hbk, assocGet_cons, ih]

theorem assocGet_assocSet_ne {V : Type} (d : List (String × V)) (k k2 : String)
    (v : V) (h : k ≠ k2) : assocGet (assocSet d k v) k2 = assocGet d k2 := by
  have hb : (k == k2) = false := beq_eq_false_iff_ne.mpr h
  induction d with
  | nil => simp [assocSet, assocGet_cons, hb]
  | cons p rest ih =>
    rw [assocSet_cons]
    cases hbk : p.1 == k
    · simp [assocGet_cons, ih]
    · have hp : p.1 = k := by simpa using hbk
      have hp2 : (p.1 == k2) = false := by
        simp only [hp, beq_eq_false_iff_ne, ne_eq]
        exact h
      simp [hbk, assocGet_cons, hp2]

theorem assocGet_eq_none_iff {V : Type} (d : List (String × V)) (k : String) :
    assocGet d k = none ↔ k ∉ d.map Prod.fst := by
  induction d with
  | nil => simp [assocGet, List.find?]
  | cons p rest ih =>
    rw [assocGet_cons]
    cases hbk : p.1 == k
    · have hp : p.1 ≠ k := by simpa using hbk
      simp [ih, Ne.symm hp]
    · have hp : p.1 = k := by simpa using hbk
      simp [hp]

theorem pricingMergeStep_ne (d : PyDict) (kv : String × PyVal) (k : String)
    (h : kv.1 ≠ k) :
    assocGet (pricingMergeStep d kv) k = assocGet d k := by
  unfold pricingMergeStep
  by_cases hc : (truthy kv.2 || !isList kv.2) = true
  · simp [hc, assocGet_assocSet_ne _ _ _ _ h]
  · simp [hc]

theorem pricing_merge_not_mem (ro : PyDict) (d : PyDict) (k : String)
    (h : k ∉ ro.map Prod.fst) :
    assocGet (pricing_merge d ro) k = assocGet d k := by
  induction ro generalizing d with
  | nil => rfl
  | cons kv rest ih =>
    simp only [List.map_cons, List.mem_cons, not_or] at h
    show assocGet (pricing_merge (pricingMergeStep d kv) rest) k = assocGet d k
    rw [ih _ h.2, pricingMergeStep_ne _ _ _ (Ne.symm h.1)]

/-! ## C1: pricing merge -/

/-- C1: for every payload dict, every pricing-response order dict with
distinct keys and every binding of that response: when the incoming value is
the empty list the payload binding for that key is unchanged by the merge,
and when the incoming value is truthy or not a list it is written into the
payload. -/
theorem pricing_merge_spec (d ro : PyDict) (k : String) (v : PyVal)
    (hnd : (ro.map Prod.fst).Nodup) (hmem : (k, v) ∈ ro) :
    (v = PyVal.list [] → assocGet (pricing_merge d ro) k = assocGet d k)
  ∧ ((truthy v || !isList v) = true →
      assocGet (pricing_merge d ro) k = some v) := by
  induction ro generalizing d with
  | nil => cases hmem
  | cons kv rest ih =>
    obtain ⟨k0, v0⟩ := kv
    rw [List.map_cons, List.nodup_cons] at hnd
    rcases List.mem_cons.mp hmem with heq | hrest
    · have hk : k = k0 := congrArg Prod.fst heq
      have hv0 : v = v0 := congrArg Prod.snd heq
      subst hk
      subst hv0
      have hmerge : assocGet (pricing_merge d ((k, v) :: rest)) k =
          assocGet (pricingMergeStep d (k, v)) k :=
        pricing_merge_not_mem rest (pricingMergeStep d (k, v)) k hnd.1
      constructor
      · intro hv
        rw [hmerge]
        subst hv
        simp [pricingMergeStep, truthy, isList]
      · intro hcond
        rw [hmerge]
        unfold pricingMergeStep
        simp only [hcond, if_true]
        exact assocGet_assocSet_self d k v
    · have hkk : k0 ≠ k := by
        intro hkk
        exact hnd.1 (hkk ▸ List.mem_map.mpr ⟨(k, v), hrest, rfl⟩)
      have ih2 := ih (pricingMergeStep d (k0, v0)) hnd.2 hrest
      have hstep := pricingMergeStep_ne d (k0, v0) k hkk
      constructor
      · intro hv
        show assocGet (pricing_merge (pricingMergeStep d (k0, v0)) rest) k =
          assocGet d k
        rw [ih2.1 hv, hstep]
      · intro hcond
        show assocGet (pricing_merge (pricingMergeStep d (k0, v0)) rest) k =
          some v
        exact ih2.2 hcond

/-- C1 witness: the empty incoming Coupons list of the concrete pricing
response leaves the non-empty Coupons list of the concrete payload
unchanged. -/
theorem pricing_merge_spec_witness :
    (((respOrderDict testPriceResp).map Prod.fst).Nodup
      ∧ ("Coupons", PyVal.list []) ∈ respOrderDict testPriceResp)
  ∧ ((PyVal.list [] = PyVal.list [] →
        assocGet (pricing_merge testData (respOrderDict testPriceResp))
          "Coupons" = assocGet testData "Coupons")
    ∧ ((truthy (PyVal.list []) || !isList (PyVal.list [])) = true →
        assocGet (pricing_merge testData (respOrderDict testPriceResp))
          "Coupons" = some (PyVal.list []))) :=
  ⟨⟨by decide, List.mem_cons_self _ _⟩,
   pricing_merge_spec testData (respOrderDict testPriceResp) "Coupons"
     (PyVal.list []) (by decide) (List.mem_cons_self _ _)⟩

/-! ## C2 and C3: add_pizza_with_toppings -/

theorem keys_assocSet {V : Type} (d : List (String × V)) (k : String) (v : V) :
    (assocSet d k v).map Prod.fst =
      if k ∈ d.map Prod.fst then d.map Prod.fst else d.map Prod.fst ++ [k] := by
  induction d with
  | nil => simp [assocSet]
  | cons p rest ih =>
    rw [assocSet_cons]
    cases hbk : p.1 == k
    · have hp : p.1 ≠ k := by simpa using hbk
      by_cases hmem : k ∈ rest.map Prod.fst
      · simp [hmem, ih, Ne.symm hp]
      · simp [hmem, ih, Ne.symm hp]
    · have hp : p.1 = k := by simpa using hbk
      simp [hp]

theorem build_topping_options_keys (ts : List String) :
    ∀ acc : ToppingOptions, (acc.map Prod.fst).Nodup →
      (((ts.foldl (fun a t => assocSet a t wholePortion) acc).map
          Prod.fst).Nodup
        ∧ ∀ x, x ∈ (ts.foldl (fun a t => assocSet a t wholePortion) acc).map
            Prod.fst ↔ x ∈ acc.map Prod.fst ∨ x ∈ ts) := by
  induction ts with
  | nil => intro acc hacc; simpa using hacc
  | cons t ts ih =>
    intro acc hacc
    rw [List.foldl_cons]
    have hkeys := keys_assocSet acc t wholePortion
    by_cases hmem : t ∈ acc.map Prod.fst
    · rw [if_pos hmem] at hkeys
      have h2 := ih (assocSet acc t wholePortion) (by rw [hkeys]; exact hacc)
      refine ⟨h2.1, fun x => ?_⟩
      rw [h2.2 x, hkeys]
      constructor
      · rintro (hx | hx)
        · exact Or.inl hx
        · exact Or.inr (List.mem_cons_of_mem t hx)
      · rintro (hx | hx)
        · exact Or.inl hx
        · rcases List.mem_cons.mp hx with rfl | hx
          · exact Or.inl hmem
          · exact Or.inr hx
    · rw [if_neg hmem] at hkeys
      have hnd2 : ((assocSet acc t wholePortion).map Prod.fst).Nodup := by
        rw [hkeys]
        simp [List.nodup_append, hacc, hmem]
      have h2 := ih (assocSet acc t wholePortion) hnd2
      refine ⟨h2.1, fun x => ?_⟩
      rw [h2.2 x, hkeys]
      simp only [List.mem_append, List.mem_singleton, List.mem_cons]
      tauto

theorem build_topping_options_length (ts : List String) :
    (build_topping_options ts).length = ts.toFinset.card := by
  have h := build_topping_options_keys ts [] (by simp)
  have hlen : (build_topping_options ts).length =
      ((build_topping_options ts).map Prod.fst).length :=
    (List.length_map _ _).symm
  have hmem : ∀ x, x ∈ (build_topping_options ts).map Prod.fst ↔ x ∈ ts := by
    intro x
    have := h.2 x
    simpa [build_topping_options] using this
  have hfs : ((build_topping_options ts).map Prod.fst).toFinset =
      ts.toFinset := by
    ext x
    simp [List.mem_toFinset, hmem x]
  have hnd : ((build_topping_options ts).map Prod.fst).Nodup := by
    have := h.1
    simpa [build_topping_options] using this
  rw [hlen, ← List.toFinset_card_of_nodup hnd, hfs]

/-- C2 (amended): add_pizza_with_toppings on an open order appends exactly
one coupon record (code, quantity 1) and exactly one product record whose
code is "P" + size + "I" + crust token and whose options map has one entry
per distinct topping code (a repeated code collapses to a single entry). -/
theorem add_pizza_spec (o : MockOrder) (coupon_code size crust : String)
    (toppings : List String) :
    add_pizza_with_toppings (some o) coupon_code size crust toppings =
      .ok ({ o with
             coupons := o.coupons ++
               [{ code := coupon_code, qty := 1,
                  id := o.coupons.length + 1 }],
             products := o.products ++
               [{ code := "P" ++ size ++ "I" ++ crustTokenService crust,
                  qty := 1, id := o.products.length + 1, isNew := true,
                  options := build_topping_options toppings }] },
           "Added " ++ size ++ " " ++ crust ++ " pizza with " ++
             toString toppings.length ++ " toppings using coupon " ++
             coupon_code)
  ∧ (build_topping_options toppings).length = toppings.toFinset.card :=
  ⟨rfl, build_topping_options_length toppings⟩

/-- C2 counterexample: with the duplicated toppings list ["P", "P"] the
stored product carries a one-entry options map, not the two entries the
claim requires for every toppings list. -/
theorem add_pizza_duplicate_topping_counterexample :
    (match add_pizza_with_toppings (some testOrder) "9204" "12" "NPAN"
        ["P", "P"] with
     | .ok (o2, _) => o2.products.map (fun p => p.options.length)
     | .error _ => []) = [1]
  ∧ ¬ ((1 : Nat) = List.length ["P", "P"]) := by
  constructor
  · rfl
  · decide

/-- C3 counterexample: for the unmapped crust "GLUTEN" the service-level
add_pizza_with_toppings stores product code "P12IHAND", not the "P12IPAZA"
the claim requires for every unmapped crust. -/
theorem crust_default_counterexample :
    (match add_pizza_with_toppings (some testOrder) "9204" "12" "GLUTEN"
        [] with
     | .ok (o2, _) => o2.products.map (fun p => p.code)
     | .error _ => []) = ["P12IHAND"]
  ∧ ¬ (("P12IHAND" : String) = "P12IPAZA") := by
  constructor
  · rfl
  · decide

/-- C3 (amended): both crust maps agree on the four mapped tokens, but the
unmapped default is "HAND" in the service-level add_pizza_with_toppings and
"PAZA" in the server-level handler. -/
theorem crust_token_spec (crust : String) (h1 : crust ≠ "NPAN")
    (h2 : crust ≠ "HAND") (h3 : crust ≠ "THIN") (h4 : crust ≠ "BROOKLYN") :
    (crustTokenService "NPAN" = "PAZA" ∧ crustTokenService "HAND" = "HAND"
      ∧ crustTokenService "THIN" = "THIN"
      ∧ crustTokenService "BROOKLYN" = "BK"
      ∧ crustTokenServer "NPAN" = "PAZA" ∧ crustTokenServer "HAND" = "HAND"
      ∧ crustTokenServer "THIN" = "THIN"
      ∧ crustTokenServer "BROOKLYN" = "BK")
  ∧ crustTokenService crust = "HAND" ∧ crustTokenServer crust = "PAZA" := by
  have hf : crust_map.find? (fun p => p.1 == crust) = none := by
    simp [crust_map, List.find?, beq_eq_false_iff_ne.mpr (Ne.symm h1),
      beq_eq_false_iff_ne.mpr (Ne.symm h2),
      beq_eq_false_iff_ne.mpr (Ne.symm h3),
      beq_eq_false_iff_ne.mpr (Ne.symm h4)]
  refine ⟨⟨rfl, rfl, rfl, rfl, rfl, rfl, rfl, rfl⟩, ?_, ?_⟩
  · rw [crustTokenService, hf]; rfl
  · rw [crustTokenServer, hf]; rfl

/-- C3 witness: the amended claim evaluated at the concrete unmapped crust
"XBREAD". -/
theorem crust_token_spec_witness :
    (("XBREAD" : String) ≠ "NPAN" ∧ ("XBREAD" : String) ≠ "HAND"
      ∧ ("XBREAD" : String) ≠ "THIN" ∧ ("XBREAD" : String) ≠ "BROOKLYN")
  ∧ ((crustTokenService "NPAN" = "PAZA" ∧ crustTokenService "HAND" = "HAND"
      ∧ crustTokenService "THIN" = "THIN"
      ∧ crustTokenService "BROOKLYN" = "BK"
      ∧ crustTokenServer "NPAN" = "PAZA" ∧ crustTokenServer "HAND" = "HAND"
      ∧ crustTokenServer "THIN" = "THIN"
      ∧ crustTokenServer "BROOKLYN" = "BK")
    ∧ crustTokenService "XBREAD" = "HAND"
    ∧ crustTokenServer "XBREAD" = "PAZA") :=
  ⟨⟨by decide, by decide, by decide, by decide⟩,
   crust_token_spec "XBREAD" (by decide) (by decide) (by decide) (by decide)⟩

/-! ## C5: add_item_to_order classification -/

/-- C5: add_item_to_order on an open order appends a coupon record if and
only if the code is exactly four decimal digits, and appends a product
record with the given options otherwise; the appended records are exactly
those of the mock-order mutators. -/
theorem add_item_classification (o : MockOrder) (item_code : String)
    (quantity : Nat) (options : Option ToppingOptions) :
    ((pyIsdigit item_code && item_code.length == 4) = true →
      add_item_to_order (some o) item_code quantity options =
        .ok (add_coupon o item_code,
             "Added coupon " ++ item_code ++ " to order"))
  ∧ ((pyIsdigit item_code && item_code.length == 4) = false →
      add_item_to_order (some o) item_code quantity options =
        .ok (add_product o item_code options,
             "Added " ++ toString quantity ++ "x " ++ item_code ++
               " to order")) := by
  constructor <;> intro h <;> simp [add_item_to_order, h]

/-- C5 witness: on the fresh concrete order, code "9204" appends a coupon
record and code "P12IPAZA" appends a product record. -/
theorem add_item_classification_witness :
    ((pyIsdigit "9204" && ("9204" : String).length == 4) = true
      ∧ add_item_to_order (some testOrder) "9204" 1 none =
          .ok (add_coupon testOrder "9204",
               "Added coupon " ++ "9204" ++ " to order"))
  ∧ ((pyIsdigit "P12IPAZA" && ("P12IPAZA" : String).length == 4) = false
      ∧ add_item_to_order (some testOrder) "P12IPAZA" 1 none =
          .ok (add_product testOrder "P12IPAZA" none,
               "Added " ++ toString 1 ++ "x " ++ "P12IPAZA" ++
                 " to order")) :=
  ⟨⟨by decide,
    (add_item_classification testOrder "9204" 1 none).1 (by decide)⟩,
   ⟨by decide,
    (add_item_classification testOrder "P12IPAZA" 1 none).2 (by decide)⟩⟩

/-! ## C6: dense 1-based sequential ids -/

theorem run_add_coupons_spec (codes : List String) (o : MockOrder) :
    (run_add_coupons codes o).coupons.map CouponRec.code =
        o.coupons.map CouponRec.code ++ codes
  ∧ (run_add_coupons codes o).coupons.map CouponRec.id =
        o.coupons.map CouponRec.id ++
          List.range' (o.coupons.length + 1) codes.length
  ∧ (run_add_coupons codes o).products = o.products := by
  induction codes generalizing o with
  | nil => simp [run_add_coupons]
  | cons c cs ih =>
    have h := ih (add_coupon o c)
    have hstep : run_add_coupons (c :: cs) o =
        run_add_coupons cs (add_coupon o c) := rfl
    refine ⟨?_, ?_, ?_⟩
    · rw [hstep, h.1]
      simp [add_coupon]
    · rw [hstep, h.2.1]
      simp [add_coupon, List.range'_succ]
    · rw [hstep, h.2.2]
      rfl

theorem run_add_products_spec (items : List (String × Option ToppingOptions))
    (o : MockOrder) :
    (run_add_products items o).products.map ProductRec.id =
        o.products.map ProductRec.id ++
          List.range' (o.products.length + 1) items.length
  ∧ (run_add_products items o).coupons = o.coupons := by
  induction items generalizing o with
  | nil => simp [run_add_products]
  | cons it its ih =>
    have h := ih (add_product o it.1 it.2)
    have hstep : run_add_products (it :: its) o =
        run_add_products its (add_product o it.1 it.2) := rfl
    refine ⟨?_, ?_⟩
    · rw [hstep, h.1]
      simp [add_product, List.range'_succ]
    · rw [hstep, h.2]
      rfl

/-- C6: on a fresh order, any sequence of add_coupon calls yields a coupons
list whose codes appear in call order and whose ids are exactly 1..n; the
analogous property holds for the products list under add_product. -/
theorem sequential_ids (store : Store) (cust : Customer) (addr : AddressRec)
    (sm : String) (codes : List String)
    (items : List (String × Option ToppingOptions)) :
    ((run_add_coupons codes (create_mock_order store cust addr sm)).coupons.map
        CouponRec.code = codes
      ∧ (run_add_coupons codes
          (create_mock_order store cust addr sm)).coupons.map CouponRec.id =
            List.range' 1 codes.length
      ∧ (run_add_coupons codes
          (create_mock_order store cust addr sm)).coupons.length =
            codes.length)
  ∧ ((run_add_products items
        (create_mock_order store cust addr sm)).products.map ProductRec.id =
          List.range' 1 items.length
      ∧ (run_add_products items
          (create_mock_order store cust addr sm)).products.length =
            items.length) := by
  have hc := run_add_coupons_spec codes (create_mock_order store cust addr sm)
  have hp := run_add_products_spec items (create_mock_order store cust addr sm)
  simp only [create_mock_order, List.map_nil, List.nil_append,
    List.length_nil, Nat.zero_add] at hc hp
  refine ⟨⟨hc.1, hc.2.1, ?_⟩, hp.1, ?_⟩
  · have := congrArg List.length hc.2.1
    simpa using this
  · have := congrArg List.length hp.1
    simpa using this

/-! ## C8: totality at the engine boundary -/

/-- C8 counterexample: with no current order the engine-level service
operations terminate by raising (embedded as Except.error), so the
engine-level operations are not total at their own boundary. -/
theorem engine_raises_counterexample :
    add_item_to_order none "9204" 1 none =
      Except.error "No order created. Call create_order first."
  ∧ add_pizza_with_toppings none "9204" "12" "NPAN" [] =
      Except.error "No order created. Call create_order first."
  ∧ view_order none = Except.error "No order created yet." :=
  ⟨rfl, rfl, rfl⟩

/-- C8 (amended): the tool-level handlers are total and always return one of
the two structured text forms, converting the NoActiveOrder exception that
the service-level operations raise on a missing order into a structured
error result. -/
theorem handlers_total (cur : Option MockOrder) (item_code : String)
    (quantity : Nat) (options : Option ToppingOptions)
    (coupon_code size crust : String) (toppings : List String) :
    ((∃ o m, handle_add_item_to_order cur item_code quantity options =
        (some o, "[ok] " ++ m))
      ∨ (∃ e, handle_add_item_to_order cur item_code quantity options =
          (cur, "Error adding item: " ++ e)))
  ∧ ((∃ o m, handle_add_pizza_with_toppings cur coupon_code size crust
        toppings = (some o, "[ok] " ++ m))
      ∨ (∃ e, handle_add_pizza_with_toppings cur coupon_code size crust
          toppings = (cur, "Error adding pizza: " ++ e)))
  ∧ ((∃ v, handle_view_order cur = "CURRENT ORDER: " ++ v)
      ∨ (∃ e, handle_view_order cur = "Error viewing order: " ++ e))
  ∧ (cur = none →
      add_item_to_order cur item_code quantity options =
          .error "No order created. Call create_order first."
        ∧ handle_add_item_to_order cur item_code quantity options =
            (none, "Error adding item: " ++
              "No order created. Call create_order first.")) := by
  refine ⟨?_, ?_, ?_, ?_⟩
  · cases cur with
    | none => exact Or.inr ⟨_, rfl⟩
    | some o =>
      by_cases h : (pyIsdigit item_code && item_code.length == 4) = true
      · exact Or.inl ⟨add_coupon o item_code,
          "Added coupon " ++ item_code ++ " to order",
          by simp [handle_add_item_to_order, add_item_to_order, h]⟩
      · exact Or.inl ⟨add_product o item_code options,
          "Added " ++ toString quantity ++ "x " ++ item_code ++ " to order",
          by simp [handle_add_item_to_order, add_item_to_order, h]⟩
  · cases cur with
    | none => exact Or.inr ⟨_, rfl⟩
    | some o => exact Or.inl ⟨_, _, rfl⟩
  · cases cur with
    | none => exact Or.inr ⟨_, rfl⟩
    | some o => exact Or.inl ⟨_, rfl⟩
  · rintro rfl
    exact ⟨rfl, rfl⟩

/-- C8 witness: the amended claim evaluated with no current order. -/
theorem handlers_total_witness :
    add_item_to_order (none : Option MockOrder) "9204" 1 none =
        .error "No order created. Call create_order first."
      ∧ handle_add_item_to_order (none : Option MockOrder) "9204" 1 none =
          (none, "Error adding item: " ++
            "No order created. Call create_order first.") :=
  (handlers_total none "9204" 1 none "9204" "12" "NPAN" []).2.2.2 rfl

/-! ## C9: quantity is never persisted -/

theorem apply_add_item_eq (o : MockOrder)
    (call : String × Nat × Option ToppingOptions) :
    apply_add_item o call =
      if (pyIsdigit call.1 && call.1.length == 4) = true then
        add_coupon o call.1
      else add_product o call.1 call.2.2 := by
  by_cases h : (pyIsdigit call.1 && call.1.length == 4) = true <;>
    simp [apply_add_item, add_item_to_order, h]

theorem run_add_items_all_qty_one (calls :
    List (String × Nat × Option ToppingOptions)) :
    ∀ o : MockOrder,
      (o.coupons.all fun r => r.qty == 1) = true →
      (o.products.all fun p => p.qty == 1) = true →
      ((run_add_items calls o).coupons.all fun r => r.qty == 1) = true
        ∧ ((run_add_items calls o).products.all fun p => p.qty == 1) =
            true := by
  induction calls with
  | nil => intro o hc hp; exact ⟨hc, hp⟩
  | cons c cs ih =>
    intro o hc hp
    have hstep : run_add_items (c :: cs) o =
        run_add_items cs (apply_add_item o c) := rfl
    rw [hstep]
    rw [apply_add_item_eq]
    by_cases h : (pyIsdigit c.1 && c.1.length == 4) = true
    · rw [if_pos h]
      exact ih _ (by simp [add_coupon, List.all_append, hc]) hp
    · rw [if_neg h]
      exact ih _ hc (by simp [add_product, List.all_append, hp])

theorem run_add_items_qty_independent (calls :
    List (String × Nat × Option ToppingOptions)) :
    ∀ o : MockOrder,
      run_add_items calls o =
        run_add_items (calls.map fun c => (c.1, 1, c.2.2)) o := by
  induction calls with
  | nil => intro o; rfl
  | cons c cs ih =>
    intro o
    have h1 : run_add_items (c :: cs) o =
        run_add_items cs (apply_add_item o c) := rfl
    have h2 : run_add_items ((c :: cs).map fun c => (c.1, 1, c.2.2)) o =
        run_add_items (cs.map fun c => (c.1, 1, c.2.2))
          (apply_add_item o (c.1, 1, c.2.2)) := rfl
    have happ : apply_add_item o (c.1, 1, c.2.2) = apply_add_item o c := by
      rw [apply_add_item_eq, apply_add_item_eq]
    rw [h1, h2, happ]
    exact ih (apply_add_item o c)

/-- C9: on a fresh order, every coupon and product record stored by any
sequence of add_item_to_order calls has quantity 1, and the stored state is
independent of the quantity arguments (they reach only the confirmation
text). -/
theorem quantity_not_persisted (store : Store) (cust : Customer)
    (addr : AddressRec) (sm : String)
    (calls : List (String × Nat × Option ToppingOptions)) :
    ((run_add_items calls (create_mock_order store cust addr sm)).coupons.all
        fun r => r.qty == 1) = true
  ∧ ((run_add_items calls
        (create_mock_order store cust addr sm)).products.all
          fun p => p.qty == 1) = true
  ∧ run_add_items calls (create_mock_order store cust addr sm) =
      run_add_items (calls.map fun c => (c.1, 1, c.2.2))
        (create_mock_order store cust addr sm) := by
  have h := run_add_items_all_qty_one calls
    (create_mock_order store cust addr sm) (by rfl) (by rfl)
  exact ⟨h.1, h.2,
    run_add_items_qty_independent calls (create_mock_order store cust addr sm)⟩

/-! ## C10: create_order updates the globals atomically -/

/-- C10: a create_order call that fails before the final assignments (a
raised lookup exception, or the IndexError raised by the eager all_stores[0]
default on an empty store list) leaves the previous current order, store and
customer exactly as they were; a successful call replaces all three globals
together with the freshly constructed order, store and customer. -/
theorem create_order_atomic (st : OrderGlobals) (lookup : StoreLookup)
    (store_id customer_name customer_email customer_phone delivery_address
     delivery_city delivery_state delivery_zip order_type : String) :
    (∀ e, create_order lookup store_id customer_name customer_email
        customer_phone delivery_address delivery_city delivery_state
        delivery_zip order_type = .error e →
      run_create_order st lookup store_id customer_name customer_email
        customer_phone delivery_address delivery_city delivery_state
        delivery_zip order_type = st)
  ∧ (lookup = .ok (.inr []) →
      create_order lookup store_id customer_name customer_email
        customer_phone delivery_address delivery_city delivery_state
        delivery_zip order_type = .error "IndexError: list index out of range")
  ∧ (∀ st2 msg, create_order lookup store_id customer_name customer_email
        customer_phone delivery_address delivery_city delivery_state
        delivery_zip order_type = .ok (st2, msg) →
      ∃ store : Store, st2 =
        { current_order := some (create_mock_order store
            { first_name := (split_name customer_name).1,
              last_name := (split_name customer_name).2,
              email := customer_email, phone := customer_phone }
            { street := delivery_address, city := delivery_city,
              region := delivery_state, zip := delivery_zip } order_type),
          current_store := some store,
          current_customer := some
            { first_name := (split_name customer_name).1,
              last_name := (split_name customer_name).2,
              email := customer_email, phone := customer_phone } }) := by
  refine ⟨?_, ?_, ?_⟩
  · intro e he
    unfold run_create_order
    rw [he]
  · intro h
    subst h
    rfl
  · intro st2 msg h
    match lookup with
    | .error e => simp [create_order] at h
    | .ok (.inl s) =>
      refine ⟨s, ?_⟩
      simp [create_order, split_name] at h
      simp [split_name]
      exact h.1.symm
    | .ok (.inr []) => simp [create_order] at h
    | .ok (.inr (s0 :: rest)) =>
      refine ⟨((s0 :: rest).find? (fun st => st.id == store_id)).getD s0, ?_⟩
      simp [create_order, split_name] at h
      simp [split_name]
      exact h.1.symm

/-- C10 witness: an empty store-list lookup raises and leaves the concrete
existing globals untouched. -/
theorem create_order_atomic_witness :
    create_order (.ok (.inr ([] : List Store))) "8022" "Jane Doe" "jane@x.com"
        "555-0001" "1 Elm St" "Springfield" "IL" "62704" "Delivery" =
      .error "IndexError: list index out of range"
  ∧ run_create_order testGlobals (.ok (.inr [])) "8022" "Jane Doe"
      "jane@x.com" "555-0001" "1 Elm St" "Springfield" "IL" "62704"
      "Delivery" = testGlobals :=
  ⟨(create_order_atomic testGlobals (.ok (.inr [])) "8022" "Jane Doe"
      "jane@x.com" "555-0001" "1 Elm St" "Springfield" "IL" "62704"
      "Delivery").2.1 rfl,
   (create_order_atomic testGlobals (.ok (.inr [])) "8022" "Jane Doe"
      "jane@x.com" "555-0001" "1 Elm St" "Springfield" "IL" "62704"
      "Delivery").1 "IndexError: list index out of range"
     ((create_order_atomic testGlobals (.ok (.inr [])) "8022" "Jane Doe"
      "jane@x.com" "555-0001" "1 Elm St" "Springfield" "IL" "62704"
      "Delivery").2.1 rfl)⟩

/-! ## C7: rejected submission -/

/-- C7: when the submission response carries Status -1, place_order reports
the rejection with exactly the StatusItems of the response and no order id,
while the payload keeps the payment entry built in the payment phase and its
OrderID stays the empty string it started with (given a pricing response
without an OrderID key). -/
theorem submit_rejected_spec (store_id first last email phone : String)
    (data0 price_resp submit_resp : PyDict) (pay : PaymentInfo) (items : PyVal)
    (hprice : statusIsNeg1 price_resp = false)
    (hpo : assocGet (respOrderDict price_resp) "OrderID" = none)
    (hd0 : assocGet data0 "OrderID" = some (PyVal.str ""))
    (hsubmit : statusIsNeg1 submit_resp = true)
    (hitems : respStatusItems submit_resp = items) :
    (place_order store_id first last email phone data0 price_resp pay
        submit_resp).1.rejected = true
  ∧ (place_order store_id first last email phone data0 price_resp pay
        submit_resp).1.success = false
  ∧ (place_order store_id first last email phone data0 price_resp pay
        submit_resp).1.status_items = some items
  ∧ (place_order store_id first last email phone data0 price_resp pay
        submit_resp).1.order_id = none
  ∧ (∃ amt, assocGet (place_order store_id first last email phone data0
        price_resp pay submit_resp).2 "Payments" =
      some (PyVal.list [payment_entry pay amt]))
  ∧ assocGet (place_order store_id first last email phone data0 price_resp
        pay submit_resp).2 "OrderID" = some (PyVal.str "") := by
  have hout : place_order store_id first last email phone data0 price_resp
      pay submit_resp =
    ({ success := false, rejected := true,
       status := assocGet submit_resp "Status",
       status_items := some (respStatusItems submit_resp),
       order_id := none, estimated_wait := none,
       error := some "ORDER REJECTED BY DOMINOS" },
     assocSet (pricing_merge (update_customer_fields data0 store_id email
         first last phone) (respOrderDict price_resp)) "Payments"
       (PyVal.list [payment_entry pay (amounts_customer (pricing_merge
         (update_customer_fields data0 store_id email first last phone)
         (respOrderDict price_resp)))])) := by
    unfold place_order
    rw [hprice, hsubmit]
    simp
  refine ⟨by rw [hout], by rw [hout], by rw [hout, hitems], by rw [hout],
    ⟨amounts_customer (pricing_merge (update_customer_fields data0 store_id
      email first last phone) (respOrderDict price_resp)), ?_⟩, ?_⟩
  · rw [hout]
    exact assocGet_assocSet_self _ _ _
  · rw [hout]
    have h1 : assocGet (assocSet (pricing_merge (update_customer_fields data0
        store_id email first last phone) (respOrderDict price_resp))
        "Payments" (PyVal.list [payment_entry pay (amounts_customer
        (pricing_merge (update_customer_fields data0 store_id email first
        last phone) (respOrderDict price_resp)))])) "OrderID" =
        assocGet (pricing_merge (update_customer_fields data0 store_id email
          first last phone) (respOrderDict price_resp)) "OrderID" :=
      assocGet_assocSet_ne _ _ _ _ (by decide)
    rw [h1]
    rw [pricing_merge_not_mem _ _ _ ((assocGet_eq_none_iff _ _).mp hpo)]
    unfold update_customer_fields
    rw [assocGet_assocSet_ne _ _ _ _ (by decide : ("Phone" : String) ≠ "OrderID"),
        assocGet_assocSet_ne _ _ _ _ (by decide : ("LastName" : String) ≠ "OrderID"),
        assocGet_assocSet_ne _ _ _ _ (by decide : ("FirstName" : String) ≠ "OrderID"),
        assocGet_assocSet_ne _ _ _ _ (by decide : ("Email" : String) ≠ "OrderID"),
        assocGet_assocSet_ne _ _ _ _ (by decide : ("StoreID" : String) ≠ "OrderID")]
    exact hd0

/-- C7 witness: the concrete rejected submission with the store-closed
status item, evaluated through the whole coordinator. -/
theorem submit_rejected_spec_witness :
    (statusIsNeg1 testPriceResp = false
      ∧ assocGet (respOrderDict testPriceResp) "OrderID" = none
      ∧ assocGet testData "OrderID" = some (PyVal.str "")
      ∧ statusIsNeg1 testSubmitResp = true
      ∧ respStatusItems testSubmitResp =
          PyVal.list [PyVal.dict [("Code", PyVal.str "10"),
            ("Text", PyVal.str "Store closed")]])
  ∧ ((place_order "8022" "Jane" "Doe" "jane@x.com" "555-0001" testData
        testPriceResp testPayment testSubmitResp).1.rejected = true
    ∧ (place_order "8022" "Jane" "Doe" "jane@x.com" "555-0001" testData
        testPriceResp testPayment testSubmitResp).1.success = false
    ∧ (place_order "8022" "Jane" "Doe" "jane@x.com" "555-0001" testData
        testPriceResp testPayment testSubmitResp).1.status_items =
        some (PyVal.list [PyVal.dict [("Code", PyVal.str "10"),
          ("Text", PyVal.str "Store closed")]])
    ∧ (place_order "8022" "Jane" "Doe" "jane@x.com" "555-0001" testData
        testPriceResp testPayment testSubmitResp).1.order_id = none
    ∧ (∃ amt, assocGet (place_order "8022" "Jane" "Doe" "jane@x.com"
          "555-0001" testData testPriceResp testPayment testSubmitResp).2
          "Payments" = some (PyVal.list [payment_entry testPayment amt]))
    ∧ assocGet (place_order "8022" "Jane" "Doe" "jane@x.com" "555-0001"
        testData testPriceResp testPayment testSubmitResp).2 "OrderID" =
        some (PyVal.str "")) :=
  ⟨⟨rfl, rfl, rfl, rfl, rfl⟩,
   submit_rejected_spec "8022" "Jane" "Doe" "jane@x.com" "555-0001" testData
     testPriceResp testSubmitResp testPayment
     (PyVal.list [PyVal.dict [("Code", PyVal.str "10"),
       ("Text", PyVal.str "Store closed")]]) rfl rfl rfl rfl rfl⟩

/-! ## C4: guidance recommends the cheapest applicable deal -/

theorem classify_multi_eq (l : List CouponEntry) :
    (classify_deals l).multi_pizza_deals = l.filter multi_pred := by
  induction l with
  | nil => rfl
  | cons c rest ih =>
    simp only [classify_deals]
    split_ifs with h1 h2 h3 h4 <;>
      simp [List.filter_cons, h1, ih]

theorem classify_single_eq (l : List CouponEntry) :
    (classify_deals l).single_pizza_deals =
      (l.filter single_pred).map (fun c => (size_tag c, c)) := by
  induction l with
  | nil => rfl
  | cons c rest ih =>
    simp only [classify_deals]
    split_ifs with h1 h2 h3 h4
    · have hs : single_pred c = false := by simp [single_pred, h1]
      simp [List.filter_cons, hs, ih]
    · have hs : single_pred c = true := by simp [single_pred, h1, h2]
      have ht : size_tag c = "medium" := by simp [size_tag, h2]
      simp [List.filter_cons, hs, ht, ih]
    · have hs : single_pred c = true := by simp [single_pred, h1, h3]
      have ht : size_tag c = "large" := by simp [size_tag, h2]
      simp [List.filter_cons, hs, ht, ih]
    · have hs : single_pred c = false := by simp [single_pred, h2, h3]
      simp [List.filter_cons, hs, ih]
    · have hs : single_pred c = false := by simp [single_pred, h2, h3]
      simp [List.filter_cons, hs, ih]

theorem get_coupons_sorted (raw : List RawCoupon) :
    List.Sorted priceLE (get_coupons raw) := by
  unfold get_coupons
  exact List.sorted_insertionSort priceLE (raw.map normalize_coupon)

theorem sorted_head_min (c : CouponEntry) (t : List CouponEntry)
    (h : List.Sorted priceLE (c :: t)) :
    ∀ x ∈ c :: t, c.price ≤ x.price := by
  intro x hx
  rcases List.mem_cons.mp hx with rfl | hx
  · exact le_refl _
  · exact (List.sorted_cons.mp h).1 x hx

/-- C4: for every raw coupon list and every request that mentions neither
deep dish nor pan, get_ordering_guidance recommends a cheapest coupon of the
multi-pizza bucket when that bucket is non-empty, otherwise a cheapest
coupon of the single-pizza bucket when that bucket is non-empty, otherwise
nothing; the first classified entry is cheapest because get_coupons returns
the list sorted ascending by price with the 999.99 sentinel for a missing
price. -/
theorem guidance_recommends_cheapest (raw : List RawCoupon)
    (user_request : String)
    (hreq1 : strHasSub (pyLower user_request) "deep dish" = false)
    (hreq2 : strHasSub (pyLower user_request) "pan" = false) :
    ((classify_deals (get_coupons raw)).multi_pizza_deals ≠ [] →
      ∃ c ∈ (classify_deals (get_coupons raw)).multi_pizza_deals,
        get_ordering_guidance raw user_request = some c.code
        ∧ ∀ c2 ∈ (classify_deals (get_coupons raw)).multi_pizza_deals,
            c.price ≤ c2.price)
  ∧ ((classify_deals (get_coupons raw)).multi_pizza_deals = [] →
      (classify_deals (get_coupons raw)).single_pizza_deals ≠ [] →
      ∃ p ∈ (classify_deals (get_coupons raw)).single_pizza_deals,
        get_ordering_guidance raw user_request = some p.2.code
        ∧ ∀ q ∈ (classify_deals (get_coupons raw)).single_pizza_deals,
            p.2.price ≤ q.2.price)
  ∧ ((classify_deals (get_coupons raw)).multi_pizza_deals = [] →
      (classify_deals (get_coupons raw)).single_pizza_deals = [] →
      get_ordering_guidance raw user_request = none) := by
  have hsorted := get_coupons_sorted raw
  have hrec : get_ordering_guidance raw user_request =
      (match (classify_deals (get_coupons raw)).multi_pizza_deals with
       | c :: _ => some c.code
       | [] =>
         match (classify_deals (get_coupons raw)).single_pizza_deals with
         | p :: _ => some p.2.code
         | [] => none) := by
    unfold get_ordering_guidance recommended_code
    simp [hreq1, hreq2]
  refine ⟨?_, ?_, ?_⟩
  · intro hne
    cases hm : (classify_deals (get_coupons raw)).multi_pizza_deals with
    | nil => exact absurd hm hne
    | cons c t =>
      refine ⟨c, List.mem_cons_self c t, ?_, ?_⟩
      · rw [hrec, hm]
      · intro c2 hc2
        have hsf : List.Sorted priceLE
            ((get_coupons raw).filter multi_pred) :=
          List.Sorted.filter multi_pred hsorted
        rw [← classify_multi_eq, hm] at hsf
        exact sorted_head_min c t hsf c2 hc2
  · intro hm0 hne
    cases hs : (classify_deals (get_coupons raw)).single_pizza_deals with
    | nil => exact absurd hs hne
    | cons p t =>
      have hsf : List.Sorted priceLE
          ((get_coupons raw).filter single_pred) :=
        List.Sorted.filter single_pred hsorted
      have hmapeq : ((get_coupons raw).filter single_pred).map
          (fun c => (size_tag c, c)) = p :: t := by
        rw [← classify_single_eq, hs]
      cases hflt : (get_coupons raw).filter single_pred with
      | nil =>
        rw [hflt] at hmapeq
        simp at hmapeq
      | cons c0 t0 =>
        rw [hflt] at hmapeq hsf
        have hp : p = (size_tag c0, c0) := by
          rw [List.map_cons] at hmapeq
          exact (List.cons.injEq _ _ _ _ ▸ hmapeq).1.symm
        refine ⟨p, List.mem_cons_self p t, ?_, ?_⟩
        · rw [hrec, hm0, hs]
        · intro q hq
          rw [← hmapeq] at hq
          obtain ⟨c2, hc2, hqeq⟩ := List.mem_map.mp hq
          have hq2 : q.2 = c2 := by rw [← hqeq]
          rw [hq2, hp]
          exact sorted_head_min c0 t0 hsf c2 hc2
  · intro hm0 hs0
    rw [hrec, hm0, hs0]

/-- C4 witness: with the concrete coupons (a 7.99 multi-pizza deal and an
11.99 large-pizza deal) and the request "party of 4", the guidance
recommends the multi-pizza code A1, the cheapest of its bucket. -/
theorem guidance_recommends_cheapest_witness :
    (strHasSub (pyLower ("party of 4" : String)) "deep dish" = false
      ∧ strHasSub (pyLower ("party of 4" : String)) "pan" = false)
  ∧ (((classify_deals (get_coupons
        [{ code := "A1", name := "2 or more Medium 2-Topping Pizzas",
           price := some (mkRat 799 100) },
         { code := "B2", name := "Large Pizza",
           price := some (mkRat 1199 100) }])).multi_pizza_deals ≠ [] →
      ∃ c ∈ (classify_deals (get_coupons
        [{ code := "A1", name := "2 or more Medium 2-Topping Pizzas",
           price := some (mkRat 799 100) },
         { code := "B2", name := "Large Pizza",
           price := some (mkRat 1199 100) }])).multi_pizza_deals,
        get_ordering_guidance
          [{ code := "A1", name := "2 or more Medium 2-Topping Pizzas",
             price := some (mkRat 799 100) },
           { code := "B2", name := "Large Pizza",
             price := some (mkRat 1199 100) }] "party of 4" = some c.code
        ∧ ∀ c2 ∈ (classify_deals (get_coupons
            [{ code := "A1", name := "2 or more Medium 2-Topping Pizzas",
               price := some (mkRat 799 100) },
             { code := "B2", name := "Large Pizza",
               price := some (mkRat 1199 100) }])).multi_pizza_deals,
            c.price ≤ c2.price)
    ∧ get_ordering_guidance
        [{ code := "A1", name := "2 or more Medium 2-Topping Pizzas",
           price := some (mkRat 799 100) },
         { code := "B2", name := "Large Pizza",
           price := some (mkRat 1199 100) }] "party of 4" = some "A1") :=
  ⟨⟨by decide, by decide⟩,
   (guidance_recommends_cheapest
     [{ code := "A1", name := "2 or more Medium 2-Topping Pizzas",
        price := some (mkRat 799 100) },
      { code := "B2", name := "Large Pizza",
        price := some (mkRat 1199 100) }] "party of 4"
     (by decide) (by decide)).1,
   by decide⟩

end MCPizza

